import Mathlib

/-!
Verification of the blob batch runner (`pkg/blob/runner.go`) of gosoline.

The per-job behaviour of the four worker kinds (`executeRead`, `executeWrite`,
`executeCopy`, `executeDelete`), the metric emission (`writeMetric`,
`getDefaultRunnerMetrics`), the settings (`BatchRunnerSettings`) and the
worker-spawning part of `Run` are embedded shallowly.  A worker's processing
of a single dequeued job is a pure function of the job and of the outcomes of
the store-client calls; besides the updated job it returns the ordered list
of observable events (claim, store call, field assignments, metric emission,
completion-signal release) exactly in the order of the Go statements.
-/

namespace Blob

/-- Operation kinds, from the constants `operationRead` .. `operationDelete`
in runner.go. -/
inductive Op where
  | read
  | write
  | copy
  | delete
deriving DecidableEq, Repr

/-- The metric operation-dimension string of each kind (constants at the top
of runner.go). -/
def opName : Op → String
  | .read => "Read"
  | .write => "Write"
  | .copy => "Copy"
  | .delete => "Delete"

/-- `metricName` constant from runner.go. -/
def metricName : String := "BlobBatchRunner"

/-- Errors returned by the store client.  `requestFailure` models a value
satisfying the `awserr.RequestFailure` interface with its HTTP status code;
`generic` models every other error value. -/
inductive AwsError where
  | requestFailure (statusCode : Nat) (msg : String)
  | generic (msg : String)
deriving DecidableEq, Repr

/-- The type-assertion-and-status test of runner.go line 137:
`err.(awserr.RequestFailure)` succeeds and `StatusCode() == 404`. -/
def isNotFound : AwsError → Bool
  | .requestFailure statusCode _ => statusCode == 404
  | .generic _ => false

/-- The job's `Error` field: either a single error value or a
`*multierror.Error` holding a list of errors. -/
inductive JobErr where
  | aws (e : AwsError)
  | multi (errs : List AwsError)
deriving DecidableEq, Repr

/-- `multierror.Append(err, e)` from hashicorp/go-multierror as used in
runner.go line 183: a nil first argument yields a multierror holding only
`e`; a plain error is combined with `e` into a two-element multierror; an
existing multierror gets `e` appended. -/
def multierrorAppend : Option JobErr → AwsError → JobErr
  | none, e => .multi [e]
  | some (.aws p), e => .multi [p, e]
  | some (.multi ps), e => .multi (ps ++ [e])

/-- The job's `Body` field.  `producerVal` is an arbitrary reader value left
there by the producer; `streamReader` is the wrapper built by the worker's
`StreamReader(body)` call (runner.go line 147), holding the wrapped
underlying body — `none` models wrapping a nil `io.ReadCloser`. -/
inductive BodyVal where
  | producerVal (tag : Nat)
  | streamReader (inner : Option Nat)
deriving DecidableEq, Repr

/-- Modelled from the spec: the Operation Job (`blob.Object`) type itself is
not under src/; §3 of the spec describes it as carrying the target bucket and
key, kind-specific inputs, the output fields existence flag / error / result
body written by exactly one worker, and a one-shot completion signal.
`wgDone` counts the `wg.Done()` releases performed on the job. -/
structure Object where
  bucket : String
  key : String
  Body : BodyVal
  Exists : Bool
  Error : Option JobErr
  wgDone : Nat
deriving DecidableEq, Repr

/-- Result of `client.GetObject`: the output's `Body` stream on success (a
nil stream is `none`), or an error. -/
structure GetObjectOutput where
  body : Option Nat
deriving DecidableEq, Repr

/-- Observable events of one worker iteration, in Go-statement order:
claiming a job from the queue, the store-client call, the close of the write
body wrapper, assignments to the job's output fields, the metric emission,
and the completion-signal release (`wg.Done()`). -/
inductive Event where
  | claim (k : Op)
  | callStore (k : Op)
  | closeBody
  | setBody
  | setExists
  | setError
  | metric (k : Op)
  | release
deriving DecidableEq, Repr

/-- One iteration of `executeRead` (runner.go lines 122-150) processing the
dequeued `object`, given the outcome `getRes` of the `GetObject` call.
Mirrors the source: local `body` starts nil and local `exists` starts true;
a 404 request failure clears the error and sets `exists` false; any other
error is kept; on success the output body is taken.  The metric is written
before the field assignments, matching the statement order of the source. -/
def executeReadJob (getRes : Except AwsError GetObjectOutput)
    (object : Object) : Object × List Event :=
  let body : Option Nat := none
  let state : Option Nat × Bool × Option AwsError :=
    match getRes with
    | .error err =>
        if isNotFound err then (body, false, none)
        else (body, true, some err)
    | .ok out => (out.body, true, none)
  let object :=
    { object with
      Body := .streamReader state.1
      Exists := state.2.1
      Error := state.2.2.map .aws
      wgDone := object.wgDone + 1 }
  (object,
    [.claim .read, .callStore .read, .metric .read,
     .setBody, .setExists, .setError, .release])

/-- One iteration of `executeWrite` (runner.go lines 160-188) processing the
dequeued `object`, given the outcome `putRes` of the `PutObject` call
(`none` for success) and the outcome `closeRes` of the `body.Close()` call
on the `CloseOnce` wrapper (`none` for success).  Mirrors the source: on put
failure the existence flag is cleared and the error set; on put success the
existence flag is set; then the body wrapper is closed and a close failure
is appended to the job's error with `multierror.Append`; then the metric is
written and the signal released. -/
def executeWriteJob (putRes : Option AwsError) (closeRes : Option AwsError)
    (object : Object) : Object × List Event :=
  let (object, putTrace) :=
    match putRes with
    | some err =>
        ({ object with Exists := false, Error := some (.aws err) },
         [Event.setExists, Event.setError])
    | none => ({ object with Exists := true }, [Event.setExists])
  let (object, closeTrace) :=
    match closeRes with
    | some cerr =>
        ({ object with Error := some (multierrorAppend object.Error cerr) },
         [Event.closeBody, Event.setError])
    | none => (object, [Event.closeBody])
  let object := { object with wgDone := object.wgDone + 1 }
  (object,
    [Event.claim .write, Event.callStore .write] ++ putTrace ++ closeTrace ++
      [Event.metric .write, Event.release])

/-- One iteration of `executeCopy` (runner.go lines 198-218) processing the
dequeued `object`, given the outcome `copyRes` of the `CopyObject` call
(`none` for success).  Only the error field is written, and only on
failure. -/
def executeCopyJob (copyRes : Option AwsError) (object : Object) :
    Object × List Event :=
  let (object, copyTrace) :=
    match copyRes with
    | some err => ({ object with Error := some (.aws err) }, [Event.setError])
    | none => (object, ([] : List Event))
  let object := { object with wgDone := object.wgDone + 1 }
  (object,
    [Event.claim .copy, Event.callStore .copy] ++ copyTrace ++
      [Event.metric .copy, Event.release])

/-- One iteration of `executeDelete` (runner.go lines 228-243) processing
the dequeued `object`, given the outcome `delRes` of the `DeleteObject`
call (`none` for success). -/
def executeDeleteJob (delRes : Option AwsError) (object : Object) :
    Object × List Event :=
  let (object, delTrace) :=
    match delRes with
    | some err => ({ object with Error := some (.aws err) }, [Event.setError])
    | none => (object, ([] : List Event))
  let object := { object with wgDone := object.wgDone + 1 }
  (object,
    [Event.claim .delete, Event.callStore .delete] ++ delTrace ++
      [Event.metric .delete, Event.release])

/-- Helper object used as a concrete job in counterexamples and witnesses. -/
def obj0 : Object :=
  { bucket := "b", key := "k", Body := .producerVal 0, Exists := false,
    Error := none, wgDone := 0 }

/-- Is the event an assignment to one of the job's output fields? -/
def isSetField : Event → Bool
  | .setBody => true
  | .setExists => true
  | .setError => true
  | _ => false

/-- Is the event a metric emission? -/
def isMetricEv : Event → Bool
  | .metric _ => true
  | _ => false

/-- Is the event a completion-signal release? -/
def isReleaseEv : Event → Bool
  | .release => true
  | _ => false

/-- Number of metric emissions in a trace. -/
def countMetric (tr : List Event) : Nat := (tr.filter isMetricEv).length

/-- Number of completion-signal releases in a trace. -/
def countRelease (tr : List Event) : Nat := (tr.filter isReleaseEv).length

/-- No output-field assignment occurs after the first metric emission of the
trace. -/
def noSetFieldAfterMetric (tr : List Event) : Bool :=
  ((tr.dropWhile (fun e => !(isMetricEv e))).filter isSetField).isEmpty

/-- The order claimed for a worker iteration of kind `k`: the claim of the
job is the first event, no output field is assigned after the metric
emission, exactly one metric is emitted, and the single completion-signal
release is the last event. -/
def claimFieldsMetricRelease (k : Op) (tr : List Event) : Prop :=
  tr.head? = some (.claim k) ∧
  noSetFieldAfterMetric tr = true ∧
  countMetric tr = 1 ∧
  tr.getLast? = some .release ∧
  countRelease tr = 1

/-- Metric priority (`metric.PriorityHigh` in the source). -/
inductive Priority where
  | low
  | high
deriving DecidableEq, Repr

/-- `metric.UnitCount`. -/
def unitCount : String := "Count"

/-- A metric datum as built in runner.go; the values written there are
exactly 0.0 and 1.0, modelled as naturals. -/
structure Datum where
  metricName : String
  priority : Priority
  dimensions : List (String × String)
  unit : String
  value : Nat
deriving DecidableEq, Repr

/-- `writeMetric` (runner.go lines 248-258): the increment datum emitted
once per finished job, tagged with the operation dimension. -/
def writeMetric (operation : String) : Datum :=
  { metricName := metricName
    priority := .high
    dimensions := [("Operation", operation)]
    unit := unitCount
    value := 1 }

/-- `getDefaultRunnerMetrics` (runner.go lines 260-299): the four
zero-valued datums handed to the metric writer at construction. -/
def getDefaultRunnerMetrics : List Datum :=
  [ { metricName := metricName
      priority := .high
      dimensions := [("Operation", opName .read)]
      unit := unitCount
      value := 0 },
    { metricName := metricName
      priority := .high
      dimensions := [("Operation", opName .write)]
      unit := unitCount
      value := 0 },
    { metricName := metricName
      priority := .high
      dimensions := [("Operation", opName .copy)]
      unit := unitCount
      value := 0 },
    { metricName := metricName
      priority := .high
      dimensions := [("Operation", opName .delete)]
      unit := unitCount
      value := 0 } ]

/-- Does the datum carry metric name `BlobBatchRunner`, the operation
dimension of kind `k`, unit count, and value zero? -/
def isZeroDatumFor (k : Op) (d : Datum) : Bool :=
  decide (d.metricName = metricName ∧
    d.dimensions = [("Operation", opName k)] ∧
    d.unit = unitCount ∧ d.value = 0)

/-- `BatchRunnerSettings` (runner.go lines 28-33).  The counts are Go ints;
the `cfg` tags give each the default 10. -/
structure BatchRunnerSettings where
  readerRunnerCount : Int
  writerRunnerCount : Int
  copyRunnerCount : Int
  deleteRunnerCount : Int
deriving DecidableEq, Repr

/-- The settings produced by config defaulting when nothing is configured:
every count tag carries `default:"10"`. -/
def defaultBatchRunnerSettings : BatchRunnerSettings :=
  { readerRunnerCount := 10, writerRunnerCount := 10,
    copyRunnerCount := 10, deleteRunnerCount := 10 }

/-- The runner as far as construction is concerned: `NewBatchRunner`
(runner.go lines 72-93) resolves the settings and hands the default metrics
to the metric writer before `Run` ever starts a worker. -/
structure batchRunner where
  metricDefaults : List Datum
  settings : BatchRunnerSettings
deriving DecidableEq, Repr

/-- `NewBatchRunner`, restricted to the state the claims are about: the
pre-registered metric defaults and the settings. -/
def NewBatchRunner (settings : BatchRunnerSettings) : batchRunner :=
  { metricDefaults := getDefaultRunnerMetrics, settings := settings }

/-- The workers spawned by the four loops of `Run` (runner.go lines
96-110), in spawn order.  A `for i := 0; i < n; i++` loop with
non-positive `n` spawns none, hence `Int.toNat`. -/
def runSpawns (s : BatchRunnerSettings) : List Op :=
  List.replicate s.readerRunnerCount.toNat .read ++
  List.replicate s.writerRunnerCount.toNat .write ++
  List.replicate s.copyRunnerCount.toNat .copy ++
  List.replicate s.deleteRunnerCount.toNat .delete

/-- The observable outcome of `Run`: which workers were spawned, that the
call then blocked on the shutdown signal (`<-ctx.Done()`), and its return
value. -/
structure RunOutcome where
  spawned : List Op
  blockedUntilShutdown : Bool
  result : Option AwsError
deriving DecidableEq, Repr

/-- `Run` (runner.go lines 95-115): spawn the four pools, block until the
shutdown signal fires, return nil. -/
def Run (s : BatchRunnerSettings) : RunOutcome :=
  { spawned := runSpawns s, blockedUntilShutdown := true, result := none }

end Blob

namespace Blob

/-- C3: a `GetObject` outcome that is a request failure with status 404 is
the distinguished not-found outcome: the worker sets the existence flag to
false and leaves the error field nil. -/
theorem read_notFound_exists_false_error_nil (e : AwsError) (object : Object)
    (h : isNotFound e = true) :
    ((executeReadJob (.error e) object).1.Exists = false) ∧
    ((executeReadJob (.error e) object).1.Error = none) := by
  simp [executeReadJob, h]

/-- Witness for C3 at a concrete 404 request failure. -/
theorem read_notFound_exists_false_error_nil_witness :
    isNotFound (.requestFailure 404 "not found") = true ∧
    ((executeReadJob (.error (.requestFailure 404 "not found")) obj0).1.Exists
      = false) ∧
    ((executeReadJob (.error (.requestFailure 404 "not found")) obj0).1.Error
      = none) :=
  ⟨by decide,
   read_notFound_exists_false_error_nil (.requestFailure 404 "not found") obj0
     (by decide)⟩

/-- C1 counterexample: for the generic (non-404) failure "boom", after the
read worker completes the job the error field is non-nil as claimed, but the
existence flag is true, not false: the local `exists` variable of
`executeRead` is initialised to `true` and only the 404 branch clears it. -/
theorem read_failure_exists_counterexample :
    ((executeReadJob (.error (.generic "boom")) obj0).1.Error ≠ none) ∧
    ¬ ((executeReadJob (.error (.generic "boom")) obj0).1.Exists = false) := by
  decide

/-- C1 amended: for every read job whose `GetObject` call fails with an error
that is not the distinguished not-found outcome, after the worker completes
the job the error field is non-nil (it holds that failure) and the existence
flag is true. -/
theorem read_failure_error_set_exists_true (e : AwsError) (object : Object)
    (h : isNotFound e = false) :
    ((executeReadJob (.error e) object).1.Error = some (.aws e)) ∧
    ((executeReadJob (.error e) object).1.Exists = true) := by
  simp [executeReadJob, h]

/-- Witness for the amended C1 at the concrete failure "boom". -/
theorem read_failure_error_set_exists_true_witness :
    isNotFound (.generic "boom") = false ∧
    ((executeReadJob (.error (.generic "boom")) obj0).1.Error
      = some (.aws (.generic "boom"))) ∧
    ((executeReadJob (.error (.generic "boom")) obj0).1.Exists = true) :=
  ⟨by decide, read_failure_error_set_exists_true (.generic "boom") obj0 (by decide)⟩

/-- C10: the read worker unconditionally overwrites the job's body field
with a `StreamReader` wrapper before releasing the completion signal: on the
success path it wraps the returned output body, and on the not-found and
failure paths it wraps the nil local body — independent of whatever body
value the producer left on the job. -/
theorem read_body_always_streamReader (getRes : Except AwsError GetObjectOutput)
    (object : Object) :
    (executeReadJob getRes object).1.Body =
      .streamReader (match getRes with
        | .ok out => out.body
        | .error _ => none) := by
  match getRes with
  | .ok out => rfl
  | .error e =>
      by_cases h : isNotFound e = true <;> simp [executeReadJob, h]

/-- C5: the write worker closes the body wrapper after the put attempt on
every path (a `closeBody` event is in every trace).  If the close fails
while the put also failed, the resulting error is the multierror holding the
put failure first and the close failure second — both visible, the primary
put failure not replaced.  If only the close fails (job error initially
nil), the error is the multierror holding just the close failure.  If the
close succeeds, the error is exactly what the put outcome produced. -/
theorem write_close_error_appended (p c : AwsError) (object : Object)
    (h : object.Error = none) :
    ((executeWriteJob (some p) (some c) object).1.Error
      = some (.multi [p, c])) ∧
    ((executeWriteJob none (some c) object).1.Error = some (.multi [c])) ∧
    ((executeWriteJob (some p) none object).1.Error = some (.aws p)) ∧
    ((executeWriteJob none none object).1.Error = none) ∧
    (Event.closeBody ∈ (executeWriteJob (some p) (some c) object).2) ∧
    (Event.closeBody ∈ (executeWriteJob none (some c) object).2) ∧
    (Event.closeBody ∈ (executeWriteJob (some p) none object).2) ∧
    (Event.closeBody ∈ (executeWriteJob none none object).2) := by
  simp [executeWriteJob, multierrorAppend, h]

/-- Witness for C5 at concrete put and close failures. -/
theorem write_close_error_appended_witness :
    obj0.Error = none ∧
    ((executeWriteJob (some (.generic "put failed")) (some (.generic "close failed"))
        obj0).1.Error
      = some (.multi [.generic "put failed", .generic "close failed"])) :=
  ⟨rfl,
   (write_close_error_appended (.generic "put failed") (.generic "close failed")
     obj0 rfl).1⟩

/-- C6: for every write job with no pre-existing error and a succeeding body
close: if the put succeeds the worker sets the existence flag to true and
leaves the error nil; if the put fails the worker sets the existence flag to
false and the error to the put failure. -/
theorem write_exists_and_error_by_put_outcome (p : AwsError) (object : Object)
    (h : object.Error = none) :
    ((executeWriteJob none none object).1.Exists = true) ∧
    ((executeWriteJob none none object).1.Error = none) ∧
    ((executeWriteJob (some p) none object).1.Exists = false) ∧
    ((executeWriteJob (some p) none object).1.Error = some (.aws p)) := by
  simp [executeWriteJob, h]

/-- Witness for C6 at a concrete put failure. -/
theorem write_exists_and_error_by_put_outcome_witness :
    obj0.Error = none ∧
    ((executeWriteJob none none obj0).1.Exists = true) ∧
    ((executeWriteJob (some (.generic "put failed")) none obj0).1.Exists
      = false) :=
  ⟨rfl,
   (write_exists_and_error_by_put_outcome (.generic "put failed") obj0 rfl).1,
   (write_exists_and_error_by_put_outcome (.generic "put failed") obj0 rfl).2.2.1⟩

/-- C7: the copy worker never touches the existence flag: on failure the
resulting job is exactly the input with the error set to the failure and the
signal released; on success it is exactly the input with the signal
released.  In particular the existence flag (and the body) are unchanged on
every path, and on failure only the error field is set. -/
theorem copy_sets_error_only (e : AwsError) (object : Object) :
    ((executeCopyJob (some e) object).1
      = { object with Error := some (.aws e), wgDone := object.wgDone + 1 }) ∧
    ((executeCopyJob none object).1
      = { object with wgDone := object.wgDone + 1 }) := by
  constructor <;> rfl

/-- C2: for every dequeued job of each of the four kinds and every store
outcome, the worker's trace contains exactly one metric emission — the one
tagged with the job's kind — and exactly one completion-signal release, and
the job's release counter grows by exactly one; the emitted datum
`writeMetric (opName k)` carries the operation dimension of the kind and the
increment value 1. -/
theorem every_job_one_metric_one_release
    (getRes : Except AwsError GetObjectOutput)
    (putRes closeRes copyRes delRes : Option AwsError) (object : Object) :
    (∀ k : Op, (writeMetric (opName k)).dimensions = [("Operation", opName k)]
      ∧ (writeMetric (opName k)).value = 1) ∧
    (countMetric (executeReadJob getRes object).2 = 1 ∧
      Event.metric .read ∈ (executeReadJob getRes object).2 ∧
      countRelease (executeReadJob getRes object).2 = 1 ∧
      (executeReadJob getRes object).1.wgDone = object.wgDone + 1) ∧
    (countMetric (executeWriteJob putRes closeRes object).2 = 1 ∧
      Event.metric .write ∈ (executeWriteJob putRes closeRes object).2 ∧
      countRelease (executeWriteJob putRes closeRes object).2 = 1 ∧
      (executeWriteJob putRes closeRes object).1.wgDone = object.wgDone + 1) ∧
    (countMetric (executeCopyJob copyRes object).2 = 1 ∧
      Event.metric .copy ∈ (executeCopyJob copyRes object).2 ∧
      countRelease (executeCopyJob copyRes object).2 = 1 ∧
      (executeCopyJob copyRes object).1.wgDone = object.wgDone + 1) ∧
    (countMetric (executeDeleteJob delRes object).2 = 1 ∧
      Event.metric .delete ∈ (executeDeleteJob delRes object).2 ∧
      countRelease (executeDeleteJob delRes object).2 = 1 ∧
      (executeDeleteJob delRes object).1.wgDone = object.wgDone + 1) := by
  refine ⟨fun k => by cases k <;> exact ⟨rfl, rfl⟩,
    ⟨rfl, by simp [executeReadJob], rfl, rfl⟩, ?_, ?_, ?_⟩
  · cases putRes <;> cases closeRes <;>
      exact ⟨rfl, by simp [executeWriteJob], rfl, rfl⟩
  · cases copyRes <;> exact ⟨rfl, by simp [executeCopyJob], rfl, rfl⟩
  · cases delRes <;> exact ⟨rfl, by simp [executeDeleteJob], rfl, rfl⟩

/-- C4 counterexample: for a concrete successfully read job, the read
worker's trace violates the claimed order — the metric is emitted before the
result fields are assigned (runner.go emits the metric at line 145, before
the assignments at lines 147-149), so `claimFieldsMetricRelease` fails for a
read job. -/
theorem read_order_counterexample :
    ¬ claimFieldsMetricRelease .read
        (executeReadJob (.ok { body := some 5 }) obj0).2 := by
  intro h
  exact absurd h.2.1 (by decide)

/-- C4 amended: for write, copy and delete jobs the worker's events are in
the claimed order — claim first, all result-field assignments before the
single metric emission, and the single completion release last — on every
store outcome; for read jobs the trace is exactly claim, store call, metric,
then the three field assignments, then the release: the metric precedes the
field assignments, and the release is still last. -/
theorem job_event_order (getRes : Except AwsError GetObjectOutput)
    (putRes closeRes copyRes delRes : Option AwsError) (object : Object) :
    ((executeReadJob getRes object).2
      = [.claim .read, .callStore .read, .metric .read,
         .setBody, .setExists, .setError, .release]) ∧
    claimFieldsMetricRelease .write (executeWriteJob putRes closeRes object).2 ∧
    claimFieldsMetricRelease .copy (executeCopyJob copyRes object).2 ∧
    claimFieldsMetricRelease .delete (executeDeleteJob delRes object).2 := by
  refine ⟨rfl, ?_, ?_, ?_⟩
  · cases putRes <;> cases closeRes <;> exact ⟨rfl, rfl, rfl, rfl, rfl⟩
  · cases copyRes <;> exact ⟨rfl, rfl, rfl, rfl, rfl⟩
  · cases delRes <;> exact ⟨rfl, rfl, rfl, rfl, rfl⟩

/-- C8: construction pre-registers with the metric writer exactly the list
`getDefaultRunnerMetrics`, which holds four datums — exactly one zero-valued
count datum per operation kind. -/
theorem construction_preregisters_zero_per_kind (s : BatchRunnerSettings) :
    (NewBatchRunner s).metricDefaults = getDefaultRunnerMetrics ∧
    getDefaultRunnerMetrics.length = 4 ∧
    ∀ k : Op, (getDefaultRunnerMetrics.filter (isZeroDatumFor k)).length = 1 := by
  refine ⟨rfl, rfl, fun k => ?_⟩
  cases k <;> decide

/-- C9: with non-negative configured counts, `Run` spawns exactly
`readerRunnerCount` read workers, `writerRunnerCount` write workers,
`copyRunnerCount` copy workers and `deleteRunnerCount` delete workers, then
blocks until the shutdown signal fires and returns nil; each count defaults
to 10. -/
theorem run_spawns_counts_and_blocks (s : BatchRunnerSettings)
    (h1 : 0 ≤ s.readerRunnerCount) (h2 : 0 ≤ s.writerRunnerCount)
    (h3 : 0 ≤ s.copyRunnerCount) (h4 : 0 ≤ s.deleteRunnerCount) :
    (((Run s).spawned.count .read : Int) = s.readerRunnerCount) ∧
    (((Run s).spawned.count .write : Int) = s.writerRunnerCount) ∧
    (((Run s).spawned.count .copy : Int) = s.copyRunnerCount) ∧
    (((Run s).spawned.count .delete : Int) = s.deleteRunnerCount) ∧
    (Run s).blockedUntilShutdown = true ∧
    (Run s).result = none ∧
    defaultBatchRunnerSettings.readerRunnerCount = 10 ∧
    defaultBatchRunnerSettings.writerRunnerCount = 10 ∧
    defaultBatchRunnerSettings.copyRunnerCount = 10 ∧
    defaultBatchRunnerSettings.deleteRunnerCount = 10 := by
  refine ⟨?_, ?_, ?_, ?_, rfl, rfl, rfl, rfl, rfl, rfl⟩ <;>
    simp [Run, runSpawns, List.count_append, List.count_replicate] <;>
    omega

/-- Witness for C9 at the default settings. -/
theorem run_spawns_counts_and_blocks_witness :
    (0 : Int) ≤ defaultBatchRunnerSettings.readerRunnerCount ∧
    ((Run defaultBatchRunnerSettings).spawned.count .read : Int)
      = defaultBatchRunnerSettings.readerRunnerCount :=
  ⟨by decide,
   (run_spawns_counts_and_blocks defaultBatchRunnerSettings
     (by decide) (by decide) (by decide) (by decide)).1⟩

end Blob
